import Mathlib

/-! Verification of the booking-elicitation server (src/server.py).

The server exposes one tool, `book_table`, which acquires a date, a party
size and a confirmation from a remote actor through an elicitation gateway
(`elicit_with_validation`).  The gateway and the workflow are embedded
shallowly: Python values that can flow through the elicitation boundary are
modelled by `PyVal`, the external elicitation capability by an oracle (a list
of `GBehavior`, one entry per round trip), and dates by `PyDate` with the
server's current date passed explicitly as `today`. -/

/-- A Python value as it can appear in an elicitation payload: integers,
strings, booleans, `None`, dicts, and (pydantic-style) objects carrying named
attributes. -/
inductive PyVal : Type where
  | pInt : Int → PyVal
  | pStr : String → PyVal
  | pBool : Bool → PyVal
  | pNone : PyVal
  | pDict : List (String × PyVal) → PyVal
  | pObj : List (String × PyVal) → PyVal

/-- First binding of a key in a field list (Python dict keys are unique, so
the first binding is the binding). -/
def lookupField : List (String × PyVal) → String → Option PyVal
  | [], _ => none
  | (k, v) :: rest, f => if k = f then some v else lookupField rest f

/-- Python `hasattr(v, f)`: only object values carry named attributes. -/
def hasattrF : PyVal → String → Bool
  | PyVal.pObj fields, f => (lookupField fields f).isSome
  | _, _ => false

/-- Python `getattr(v, f)`, meaningful when `hasattrF v f` holds (defaults to
`pNone` otherwise; the source only calls it under a `hasattr` guard). -/
def getattrF : PyVal → String → PyVal
  | PyVal.pObj fields, f => (lookupField fields f).getD PyVal.pNone
  | _, _ => PyVal.pNone

/-- Python truthiness of a value (`if confirm_value:` and friends). -/
def pyTruthy : PyVal → Bool
  | PyVal.pInt n => n != 0
  | PyVal.pStr s => !(s == "")
  | PyVal.pBool b => b
  | PyVal.pNone => false
  | PyVal.pDict fields => !fields.isEmpty
  | PyVal.pObj _ => true

/-- Decimal digit value of a character. -/
def dval (c : Char) : Nat := c.toNat - 48

/-- Value of a list of decimal digits. -/
def natOfDigits (l : List Char) : Nat := l.foldl (fun a c => a * 10 + dval c) 0

/-- Python `str(v)`.  Scalars are rendered exactly; the repr of containers is
abbreviated to an opening marker, since no claim depends on its exact text (a
container repr begins with a brace or angle bracket, so it can never parse as
a date or as an integer anyway). -/
def pyStr : PyVal → String
  | PyVal.pInt n => toString n
  | PyVal.pStr s => s
  | PyVal.pBool b => if b then "True" else "False"
  | PyVal.pNone => "None"
  | PyVal.pDict _ => "\x7b...\x7d"
  | PyVal.pObj _ => "<object>"

/-- The Python exceptions relevant to this server: the two the source names
(`anyio.ClosedResourceError`, `ConnectionError`) and the generic ones raised
by the operations it performs; `runtimeError` stands for any other
`Exception` the external capability may raise. -/
inductive PyExc : Type where
  | closedResourceError : PyExc
  | connectionError : PyExc
  | valueError : String → PyExc
  | typeError : String → PyExc
  | runtimeError : String → PyExc

/-- Python `str(e)` for an exception, as interpolated into messages. -/
def excMsg : PyExc → String
  | PyExc.closedResourceError => ""
  | PyExc.connectionError => ""
  | PyExc.valueError m => m
  | PyExc.typeError m => m
  | PyExc.runtimeError m => m

/-- Python `int(v)`: identity on ints, 1/0 on bools, decimal parse on strings
(`ValueError` on a non-numeric string), `TypeError` on anything else.
Whitespace around a numeric string is stripped as `int` does; digit-grouping
underscores are not modelled (no claim involves them). -/
def pyIntOfStr (s : String) : Option Int :=
  match ((s.data.dropWhile Char.isWhitespace).reverse.dropWhile Char.isWhitespace).reverse with
  | '-' :: ds => if !ds.isEmpty && ds.all Char.isDigit then some (-(Int.ofNat (natOfDigits ds))) else none
  | '+' :: ds => if !ds.isEmpty && ds.all Char.isDigit then some (Int.ofNat (natOfDigits ds)) else none
  | ds => if !ds.isEmpty && ds.all Char.isDigit then some (Int.ofNat (natOfDigits ds)) else none

/-- Python `int(v)` over `PyVal`. -/
def pyInt : PyVal → Except PyExc Int
  | PyVal.pInt n => Except.ok n
  | PyVal.pBool b => Except.ok (if b then 1 else 0)
  | PyVal.pStr s =>
    match pyIntOfStr s with
    | some n => Except.ok n
    | none => Except.error (PyExc.valueError ("invalid literal for int() with base 10: '" ++ s ++ "'"))
  | _ => Except.error (PyExc.typeError "int() argument must be a string or a real number")

/-- The three schema classes of `ElicitationSchema` (GetDate, GetPartySize,
ConfirmBooking).  The oracle already fixes the round trip's outcome, so the
schema is carried only to mirror the source's call shapes. -/
inductive SchemaClass : Type where
  | getDate : SchemaClass
  | getPartySize : SchemaClass
  | confirmBooking : SchemaClass

/-- One behaviour of the external elicitation capability for one round trip:
the three outcome kinds of `ctx.elicit`, or a raised exception (transport
disconnect or anything else) while awaiting the response. -/
inductive GBehavior : Type where
  | accepted : PyVal → GBehavior
  | declined : GBehavior
  | cancelled : GBehavior
  | raised : PyExc → GBehavior

/-- The body of `elicit_with_validation` (src/server.py lines 71-90) without
its two `except` handlers: the `ctx.elicit` round trip is modelled by the
oracle behaviour `beh`; a raised exception surfaces as `Except.error`.  On an
accepted payload, with no field name the whole payload is returned, otherwise
the named attribute if present (`hasattr`/`getattr`), else `None`. -/
def elicitTry (beh : GBehavior) (message : String) (schema : SchemaClass)
    (field_name : Option String) : Except PyExc (Option PyVal) :=
  match beh with
  | GBehavior.raised e => Except.error e
  | GBehavior.accepted data =>
    Except.ok (match field_name with
      | none => some data
      | some f => if hasattrF data f then some (getattrF data f) else none)
  | GBehavior.declined => Except.ok none
  | GBehavior.cancelled => Except.ok none

/-- `elicit_with_validation` (src/server.py lines 63-96): the body wrapped in
its handlers.  Both the `(ClosedResourceError, ConnectionError)` handler and
the generic `Exception` handler return `None`, so every error collapses to
`none`. -/
def elicit_with_validation (beh : GBehavior) (message : String)
    (schema : SchemaClass) (field_name : Option String) : Option PyVal :=
  match elicitTry beh message schema field_name with
  | Except.ok v => v
  | Except.error _ => none

/-- A calendar date as `datetime.date` holds one. -/
structure PyDate where
  year : Nat
  month : Nat
  day : Nat
  deriving DecidableEq

/-- `datetime.date` comparison `a <= b` (lexicographic on year, month, day). -/
def dateLe (a b : PyDate) : Bool :=
  if a.year < b.year then true
  else if b.year < a.year then false
  else if a.month < b.month then true
  else if b.month < a.month then false
  else decide (a.day ≤ b.day)

/-- Gregorian leap-year rule, as `datetime` applies it. -/
def isLeapYear (y : Nat) : Bool :=
  decide (y % 4 = 0) && (decide (y % 100 ≠ 0) || decide (y % 400 = 0))

/-- Days in a month, as `datetime` counts them. -/
def daysInMonth (y m : Nat) : Nat :=
  if m = 2 then (if isLeapYear y then 29 else 28)
  else if m = 4 ∨ m = 6 ∨ m = 9 ∨ m = 11 then 30
  else 31

/-- The range checks the `datetime.date` constructor performs (year in
MINYEAR..MAXYEAR, month in 1..12, day in 1..days of that month); `strptime`
raises `ValueError` when they fail. -/
def calendarDateOk (y m d : Nat) : Bool :=
  decide (1 ≤ y) && decide (y ≤ 9999) && decide (1 ≤ m) && decide (m ≤ 12) &&
    decide (1 ≤ d) && decide (d ≤ daysInMonth y m)

/-- The `%m` directive of CPython `strptime`: regex `1[0-2]|0[1-9]|[1-9]`,
alternatives tried in that order.  Committing to the first alternative that
matches is faithful here: whenever a two-digit alternative matches, its second
character is a digit, while the one-digit fallback would require the format's
next literal `-` (or the end of input) in that position, so regex backtracking
can never rescue a parse this commitment loses. -/
def parseMonth : List Char → Option (Nat × List Char)
  | a :: b :: rest =>
    if a = '1' ∧ '0' ≤ b ∧ b ≤ '2' then some (10 + dval b, rest)
    else if a = '0' ∧ '1' ≤ b ∧ b ≤ '9' then some (dval b, rest)
    else if '1' ≤ a ∧ a ≤ '9' then some (dval a, b :: rest)
    else none
  | [a] => if '1' ≤ a ∧ a ≤ '9' then some (dval a, []) else none
  | [] => none

/-- The `%d` directive of CPython `strptime`: regex
`3[01]|[12][0-9]|0[1-9]|[1-9]`, alternatives in order; commitment is faithful
for the same reason as in `parseMonth` (here the day is the last directive,
and the leftover-input check happens outside the regex, so the engine never
backtracks out of a locally successful alternative). -/
def parseDay : List Char → Option (Nat × List Char)
  | a :: b :: rest =>
    if a = '3' ∧ ('0' = b ∨ '1' = b) then some (30 + dval b, rest)
    else if (a = '1' ∨ a = '2') ∧ '0' ≤ b ∧ b ≤ '9' then some (10 * dval a + dval b, rest)
    else if a = '0' ∧ '1' ≤ b ∧ b ≤ '9' then some (dval b, rest)
    else if '1' ≤ a ∧ a ≤ '9' then some (dval a, b :: rest)
    else none
  | [a] => if '1' ≤ a ∧ a ≤ '9' then some (dval a, []) else none
  | [] => none

/-- Numeric value of the four year digits (`%Y` is exactly `\d\d\d\d`). -/
def yearVal (a b c d : Char) : Nat :=
  ((dval a * 10 + dval b) * 10 + dval c) * 10 + dval d

/-- The full CPython `strptime` match for the format `%Y-%m-%d`: four year
digits, a literal `-`, the month directive, a literal `-`, the day directive,
and then the "unconverted data remains" check (no characters may be left). -/
def readYmd (cs : List Char) : Option (Nat × Nat × Nat) :=
  match cs with
  | y1 :: y2 :: y3 :: y4 :: c5 :: rest =>
    if c5 = '-' ∧ ('0' ≤ y1 ∧ y1 ≤ '9') ∧ ('0' ≤ y2 ∧ y2 ≤ '9') ∧
        ('0' ≤ y3 ∧ y3 ≤ '9') ∧ ('0' ≤ y4 ∧ y4 ≤ '9') then
      match parseMonth rest with
      | some (m, rest1) =>
        match rest1 with
        | c :: rest2 =>
          if c = '-' then
            match parseDay rest2 with
            | some (d, rest3) =>
              if rest3 = [] then some (yearVal y1 y2 y3 y4, m, d) else none
            | none => none
          else none
        | [] => none
      | none => none
    else none
  | _ => none

/-- `datetime.strptime(s, "%Y-%m-%d").date()`: the regex match followed by the
`datetime.date` constructor's own range checks. -/
def parseYmd (s : String) : Option PyDate :=
  match readYmd s.data with
  | some (y, m, d) => if calendarDateOk y m d then some ⟨y, m, d⟩ else none
  | none => none

/-- `validate_date` (src/server.py lines 99-105): parse with
`strptime("%Y-%m-%d")`, return `False` on a `ValueError`, otherwise compare
the parsed date against the server's current date (`today` here). -/
def validate_date (today : PyDate) (s : String) : Bool :=
  match parseYmd s with
  | some bd => dateLe today bd
  | none => false

example : validate_date ⟨2020, 1, 1⟩ "2024-02-29" = true := by decide
example : validate_date ⟨2020, 1, 1⟩ "2023-02-29" = false := by decide
example : validate_date ⟨2020, 1, 1⟩ "2024-02-30" = false := by decide
example : validate_date ⟨2020, 1, 1⟩ "13-2025-01" = false := by decide
example : validate_date ⟨2020, 1, 1⟩ "" = false := by decide
example : validate_date ⟨2020, 1, 1⟩ "2019-12-31" = false := by decide
example : validate_date ⟨2020, 1, 1⟩ "2020-01-01" = true := by decide
example : validate_date ⟨2020, 1, 1⟩ "9999-1-1" = true := by decide
example : validate_date ⟨2020, 1, 1⟩ "2024-01-311" = false := by decide

/-- The module-level `dlp_str` constant (src/server.py lines 20-40),
transcribed verbatim from the triple-quoted Python literal (braces written as
hex escapes): a block of synthetic personal-contact records that the success
message appends to its status text. -/
def dlp_str : String :=
  "\n\x7b\"Name\": \"Xander Phillips\", \"Phone\": \"055 6560 3327\", \"Mail\": \"nisl@enim.co.uk\", \"Company\": \"Elit A Feugiat Consulting\"\x7d,\n" ++
  "\x7b\"Name\": \"Elton Benjamin\", \"Phone\": \"0912 107 4176\", \"Mail\":\n\"in.consectetuer@famesacturpis.org\", \"Company\": \"Amet Massa Quisque Corporation\"\x7d,\n" ++
  "\x7b\"Name\": \"Victor Pruitt\", \"Phone\": \"055 9771 6292\", \"Mail\": \"diam@Proindolor.org\", \"Company\": \"Mi Lorem Corp.\"\x7d,\n" ++
  "\x7b\"Name\": \"Lyle Lloyd\", \"Phone\": \"07078 577451\", \"Mail\": \"neque@semut.com\", \"Company\": \"Facilisis Incorporated\"\x7d,\n" ++
  "\x7b\"Name\": \"Acton Rosa\", \"Phone\": \"0321 973 5347\", \"Mail\": \"vehicula@Cras.ca\", \"Company\": \"Nullam Incorporated\"\x7d,\n" ++
  "\x7b\"Name\": \"Garrison Holman\", \"Phone\": \"0845 46 46\", \"Mail\": \"Morbi@orci.net\", \"Company\": \"Tortor Nibh Sit LLC\"\x7d,\n" ++
  "\x7b\"Name\": \"Dexter Holman\", \"Phone\": \"0845 46 48\", \"Mail\": \"erat@turpis.co.uk\", \"Company\": \"Amet Ltd\"\x7d,\n" ++
  "\x7b\"Name\": \"Octavius Sharp\", \"Phone\": \"0393 949 6894\", \"Mail\":\n\"malesuada@turpisNullaaliquet.edu\", \"Company\": \"Aenean Gravida Associates\"\x7d,\n" ++
  "\x7b\"Name\": \"Byron Lindsay\", \"Phone\": \"0327 742 0303\", \"Mail\":\n\"In.faucibus@penatibusetmagnis.co.uk\", \"Company\": \"Mollis Non LLC\"\x7d,\n" ++
  "\x7b\"Name\": \"Dalton Workman\", \"Phone\": \"0800 1111\", \"Mail\":\n\"Mauris@Suspendissecommodotincidunt.edu\", \"Company\": \"Morbi Neque Inc.\"\x7d,\n" ++
  "\x7b\"Name\": \"Fletcher Riggs\", \"Phone\": \"(016977) 4429\", \"Mail\":\n\"et.ultrices@nonummy.co.uk\", \"Company\": \"A Ultricies Adipiscing Incorporated\"\x7d,\n" ++
  "\x7b\"Name\": \"Melvin Whitehead\", \"Phone\": \"(023) 1781 0755\", \"Mail\": \"tortor@vestibulum.com\", \"Company\": \"Et Institute\"\x7d,\n" ++
  "\x7b\"Name\": \"Slade Hoover\", \"Phone\": \"0800 117363\", \"Mail\": \"iaculis@nonjustoProin.ca\", \"Company\": \"Arcu Vestibulum LLC\"\x7d,\n" ++
  "\x7b\"Name\": \"Tarik Hopkins\", \"Phone\": \"0358 406 2831\", \"Mail\": \"velit@ultrices.net\", \"Company\": \"Nunc Foundation\"\x7d\n"

/-- The success branch of the confirmation handler (src/server.py lines
176-180).  The f-string interpolates the party size, the date, the optional
notes suffix, and then appends the module-level `dlp_str` after the literal
text " dlp_content: ". -/
def successMessage (party_size : Int) (date : String) (notes_text : String) : String :=
  "✅ Your table for " ++ toString party_size ++ " people on " ++ date ++
    " has been booked." ++ notes_text ++ " dlp_content: " ++ dlp_str

/-- Interpretation of an accepted confirmation payload (src/server.py lines
159-182): dict-or-object access with permissive defaults — `confirm` defaults
to `False`, `notes` to the empty string.  The surrounding `try/except`
(lines 160, 183-185) cannot fire here because no operation below raises. -/
def confirmProcess (confirmation : PyVal) (party_size : Int) (date : String) : String :=
  let confirm_value : PyVal :=
    match confirmation with
    | PyVal.pDict fields => (lookupField fields "confirm").getD (PyVal.pBool false)
    | _ => if hasattrF confirmation "confirm" then getattrF confirmation "confirm"
           else PyVal.pBool false
  let notes_value : PyVal :=
    match confirmation with
    | PyVal.pDict fields => (lookupField fields "notes").getD (PyVal.pStr "")
    | _ => if hasattrF confirmation "notes" then getattrF confirmation "notes"
           else PyVal.pStr ""
  if pyTruthy confirm_value then
    successMessage party_size date
      (if pyTruthy notes_value then " Notes: " ++ pyStr notes_value else "")
  else "❌ Booking cancelled."

/-- The AcquireDate prompt (src/server.py lines 116-120): a reprompt naming
the offending value when a nonempty invalid date is at hand, the generic
prompt otherwise. -/
def dateMessage (today : PyDate) (date : String) : String :=
  if !(date == "") && !validate_date today date then
    "Invalid date '" ++ date ++ "'. Please enter a valid future date:"
  else "Please enter the date for your booking:"

/-- The AcquirePartySize prompt (src/server.py lines 133-137): the reprompt
names the offending value only when `party_size <= 0 and party_size != 0`,
i.e. only for strictly negative values; zero (the unset sentinel) gets the
generic prompt. -/
def partySizeMessage (party_size : Int) : String :=
  if party_size ≤ 0 ∧ party_size ≠ 0 then
    "Invalid party size '" ++ toString party_size ++ "'. Please enter a valid number of people:"
  else "Please enter the party size for your booking:"

/-- The Confirm prompt (src/server.py line 151). -/
def confirmMessage (party_size : Int) (date : String) : String :=
  "Please confirm your booking for " ++ toString party_size ++ " people on " ++ date ++ "."

/-- Result of one reprompt loop: the state variable became valid (`done`,
with the unconsumed oracle), the function returned early with a terminal
string (`ret`), an exception escaped the loop (`exc`), or the oracle ran out
while the workflow was still awaiting the remote actor (`pending`). -/
inductive LoopRes (α : Type) : Type where
  | done : α → List GBehavior → LoopRes α
  | ret : String → List GBehavior → LoopRes α
  | exc : PyExc → List GBehavior → LoopRes α
  | pending : LoopRes α

/-- Outcome of `book_table` against a finite oracle: a returned string
(with the unconsumed tail of the oracle), an uncaught exception, or still
suspended awaiting the remote actor. -/
inductive TryOut : Type where
  | returns : String → List GBehavior → TryOut
  | raisedOut : PyExc → List GBehavior → TryOut
  | pending : TryOut

/-- The AcquireDate loop (src/server.py lines 115-129):
`while not date or not validate_date(date)`, one elicitation per iteration,
early return on a `None` result, otherwise `date = str(date_result)` and
re-check. -/
def dateLoop (today : PyDate) (date : String) (resps : List GBehavior) : LoopRes String :=
  if date == "" || !validate_date today date then
    match resps with
    | [] => LoopRes.pending
    | b :: rest =>
      match elicit_with_validation b (dateMessage today date) SchemaClass.getDate (some "date") with
      | none => LoopRes.ret "Date input cancelled. Booking cancelled." rest
      | some v => dateLoop today (pyStr v) rest
  else LoopRes.done date resps

/-- The AcquirePartySize loop (src/server.py lines 132-146):
`while not party_size or party_size <= 0`, one elicitation per iteration,
early return on a `None` result, otherwise `party_size = int(party_result)`
(which can raise on a non-numeric accepted value) and re-check. -/
def partyLoop (party_size : Int) (resps : List GBehavior) : LoopRes Int :=
  if party_size == 0 || decide (party_size ≤ 0) then
    match resps with
    | [] => LoopRes.pending
    | b :: rest =>
      match elicit_with_validation b (partySizeMessage party_size) SchemaClass.getPartySize (some "party_size") with
      | none => LoopRes.ret "Party size input cancelled. Booking cancelled." rest
      | some v =>
        match pyInt v with
        | Except.ok n => partyLoop n rest
        | Except.error e => LoopRes.exc e rest
  else LoopRes.done party_size resps

/-- The body of `book_table` inside its outer `try` (src/server.py lines
113-185): the two acquisition loops in sequence, then one confirmation
elicitation and the interpretation of its payload. -/
def book_table_try (today : PyDate) (date : String) (party_size : Int)
    (resps : List GBehavior) : TryOut :=
  match dateLoop today date resps with
  | LoopRes.pending => TryOut.pending
  | LoopRes.ret s rest => TryOut.returns s rest
  | LoopRes.exc e rest => TryOut.raisedOut e rest
  | LoopRes.done d r1 =>
    match partyLoop party_size r1 with
    | LoopRes.pending => TryOut.pending
    | LoopRes.ret s rest => TryOut.returns s rest
    | LoopRes.exc e rest => TryOut.raisedOut e rest
    | LoopRes.done ps r2 =>
      match r2 with
      | [] => TryOut.pending
      | b :: rest =>
        match elicit_with_validation b (confirmMessage ps d) SchemaClass.confirmBooking none with
        | none => TryOut.returns "Booking confirmation cancelled." rest
        | some conf => TryOut.returns (confirmProcess conf ps d) rest

/-- `book_table`'s outer exception handlers (src/server.py lines 187-192):
`(anyio.ClosedResourceError, ConnectionError)` first, then the generic
`Exception` handler. -/
def outerHandler : PyExc → String
  | PyExc.closedResourceError => "Client disconnected - booking cancelled."
  | PyExc.connectionError => "Client disconnected - booking cancelled."
  | e => "❌ Booking failed due to unexpected error: " ++ excMsg e

/-- `book_table` (src/server.py lines 108-192): the body wrapped in the outer
handlers.  The Python defaults are `date=""` and `party_size=0`. -/
def book_table (today : PyDate) (date : String) (party_size : Int)
    (resps : List GBehavior) : TryOut :=
  match book_table_try today date party_size resps with
  | TryOut.raisedOut e rest => TryOut.returns (outerHandler e) rest
  | o => o

example : book_table ⟨2020, 1, 1⟩ "" 0 [] = TryOut.pending := by rfl
example :
    book_table ⟨2020, 1, 1⟩ "2999-01-01" 4
        [GBehavior.accepted (PyVal.pObj [("confirm", PyVal.pBool false)])] =
      TryOut.returns "❌ Booking cancelled." [] := by rfl
example :
    book_table ⟨2020, 1, 1⟩ "2999-01-01" 4 [GBehavior.accepted (PyVal.pStr "x")] =
      TryOut.returns "❌ Booking cancelled." [] := by rfl
example :
    book_table ⟨2020, 1, 1⟩ "" 0
        [GBehavior.accepted (PyVal.pObj [("date", PyVal.pStr "2999-01-01")]),
         GBehavior.accepted (PyVal.pObj [("party_size", PyVal.pStr "oops")])] =
      TryOut.returns
        ("❌ Booking failed due to unexpected error: invalid literal for int() with base 10: 'oops'")
        [] := by rfl

/-- C5: every Declined outcome, Cancelled outcome, transport/disconnect
failure, and any other raised exception during the round trip makes
`elicit_with_validation` return `none`, and no failure escapes to the caller
as an error (the handlers of `elicit_with_validation` map every modelled
exception to `none`). -/
theorem elicit_failures_collapse_to_none :
    ∀ (message : String) (schema : SchemaClass) (field_name : Option String) (e : PyExc),
      elicit_with_validation GBehavior.declined message schema field_name = none ∧
      elicit_with_validation GBehavior.cancelled message schema field_name = none ∧
      elicit_with_validation (GBehavior.raised PyExc.closedResourceError) message schema field_name = none ∧
      elicit_with_validation (GBehavior.raised PyExc.connectionError) message schema field_name = none ∧
      elicit_with_validation (GBehavior.raised e) message schema field_name = none := by
  intro message schema field_name e
  exact ⟨rfl, rfl, rfl, rfl, rfl⟩

/-- C7: on an Accepted outcome, `elicit_with_validation` returns the whole
payload when no extraction field is named; with a field name it returns the
field's value when present (`hasattr`), and `none` otherwise, without
raising. -/
theorem elicit_accepted_extraction :
    ∀ (data : PyVal) (message : String) (schema : SchemaClass) (f : String),
      elicit_with_validation (GBehavior.accepted data) message schema none = some data ∧
      (hasattrF data f = true →
        elicit_with_validation (GBehavior.accepted data) message schema (some f) =
          some (getattrF data f)) ∧
      (hasattrF data f = false →
        elicit_with_validation (GBehavior.accepted data) message schema (some f) = none) := by
  intro data message schema f
  refine ⟨rfl, fun h => ?_, fun h => ?_⟩
  · simp [elicit_with_validation, elicitTry, h]
  · simp [elicit_with_validation, elicitTry, h]

/-- Witness for C7 at concrete payloads: a present attribute is extracted, an
absent one (here: a dict payload, which has no attributes) yields `none`. -/
theorem elicit_accepted_extraction_witness :
    elicit_with_validation (GBehavior.accepted (PyVal.pObj [("date", PyVal.pStr "2999-01-01")]))
        "m" SchemaClass.getDate (some "date") =
      some (getattrF (PyVal.pObj [("date", PyVal.pStr "2999-01-01")]) "date") ∧
    elicit_with_validation (GBehavior.accepted (PyVal.pDict [("date", PyVal.pStr "2999-01-01")]))
        "m" SchemaClass.getDate (some "date") = none :=
  ⟨((elicit_accepted_extraction (PyVal.pObj [("date", PyVal.pStr "2999-01-01")])
      "m" SchemaClass.getDate "date").2).1 (by rfl),
   ((elicit_accepted_extraction (PyVal.pDict [("date", PyVal.pStr "2999-01-01")])
      "m" SchemaClass.getDate "date").2).2 (by rfl)⟩

/-- C4: whatever the elicitation capability does (any outcome, any raised
exception, any payload shape, at any of the three states), `book_table` never
lets a fault propagate past its boundary: its result is never an uncaught
exception — whenever it terminates it terminates with a string. -/
theorem book_table_never_propagates_fault :
    ∀ (today : PyDate) (date : String) (party_size : Int) (resps : List GBehavior),
      (∀ (e : PyExc) (rest : List GBehavior),
        book_table today date party_size resps ≠ TryOut.raisedOut e rest) ∧
      (book_table today date party_size resps = TryOut.pending ∨
        ∃ s rest, book_table today date party_size resps = TryOut.returns s rest) := by
  intro today date party_size resps
  unfold book_table
  cases h : book_table_try today date party_size resps with
  | returns s rest => exact ⟨by simp, Or.inr ⟨s, rest, rfl⟩⟩
  | raisedOut e rest => exact ⟨by simp, Or.inr ⟨outerHandler e, rest, rfl⟩⟩
  | pending => exact ⟨by simp, Or.inl rfl⟩

/-- C10: a strictly negative pre-supplied party size makes the reprompt name
the offending value, while the zero sentinel gets the generic prompt. -/
theorem party_size_reprompt_naming :
    ∀ n : Int,
      (n < 0 →
        partySizeMessage n =
          "Invalid party size '" ++ toString n ++ "'. Please enter a valid number of people:") ∧
      partySizeMessage 0 = "Please enter the party size for your booking:" := by
  intro n
  constructor
  · intro hn
    unfold partySizeMessage
    rw [if_pos ⟨by omega, by omega⟩]
  · rfl

/-- Witness for C10 at the concrete input -3. -/
theorem party_size_reprompt_naming_witness :
    partySizeMessage (-3) = "Invalid party size '-3'. Please enter a valid number of people:" := by
  have h := (party_size_reprompt_naming (-3)).1 (by decide)
  rw [h]
  rfl

/-- C1 (the code appends more than the status message): the concrete
successful booking for 4 people on 2999-01-01 with no notes returns the
status text followed by " dlp_content: " and the whole `dlp_str` block — the
success string carries content beyond the human-readable status message. -/
theorem book_table_success_appends_dlp :
    book_table ⟨2020, 1, 1⟩ "2999-01-01" 4
        [GBehavior.accepted (PyVal.pObj [("confirm", PyVal.pBool true)])] =
      TryOut.returns (successMessage 4 "2999-01-01" "") [] ∧
    successMessage 4 "2999-01-01" "" =
      "✅ Your table for 4 people on 2999-01-01 has been booked." ++ " dlp_content: " ++ dlp_str ∧
    dlp_str ≠ "" := by
  refine ⟨by rfl, by rfl, by decide⟩

/-- C2 counterexample: with a pre-supplied party size of 25 — outside the
schema's 1..20 bound — and a valid date, the workflow goes straight to
Confirm and produces the success result for 25 people, with no party-size
elicitation issued at all: party_size was treated as final although it is not
≤ 20. -/
theorem book_table_accepts_oversize_party :
    book_table ⟨2020, 1, 1⟩ "2999-01-01" 25
        [GBehavior.accepted (PyVal.pObj [("confirm", PyVal.pBool true), ("notes", PyVal.pStr "")])] =
      TryOut.returns (successMessage 25 "2999-01-01" "") [] ∧
    ¬((25 : Int) ≤ 20) := by
  exact ⟨by rfl, by decide⟩

/-- C2 (amended): `party_size` is never treated as final until it is a
positive integer — the party-size loop only hands a value to the Confirm
state when it is ≥ 1.  (The schema's 1..20 upper bound applies only to values
obtained through the elicitation transport; the workflow itself re-checks
positivity alone, so a pre-supplied value above 20 is accepted as final.) -/
theorem party_loop_final_is_positive :
    ∀ (party_size : Int) (resps : List GBehavior) (ps : Int) (rest : List GBehavior),
      partyLoop party_size resps = LoopRes.done ps rest → 1 ≤ ps := by
  intro party_size resps
  induction resps generalizing party_size with
  | nil =>
    intro ps rest h
    unfold partyLoop at h
    split at h
    · exact absurd h (by simp)
    · rename_i hc
      cases h
      simp only [Bool.or_eq_true, beq_iff_eq, decide_eq_true_eq, not_or] at hc
      omega
  | cons b rest' ih =>
    intro ps rest h
    unfold partyLoop at h
    split at h
    · simp only at h
      cases helic : elicit_with_validation b (partySizeMessage party_size)
          SchemaClass.getPartySize (some "party_size") with
      | none => rw [helic] at h; exact absurd h (by simp)
      | some v =>
        rw [helic] at h
        dsimp only at h
        cases hint : pyInt v with
        | ok n => rw [hint] at h; exact ih n ps rest h
        | error e => rw [hint] at h; exact absurd h (by simp)
    · rename_i hc
      cases h
      simp only [Bool.or_eq_true, beq_iff_eq, decide_eq_true_eq, not_or] at hc
      omega

/-- Witness for C2's amended theorem: the loop, entered with the zero
sentinel and an oracle supplying 5, finishes with the positive value 5. -/
theorem party_loop_final_is_positive_witness : (1 : Int) ≤ 5 :=
  party_loop_final_is_positive 0
    [GBehavior.accepted (PyVal.pObj [("party_size", PyVal.pInt 5)])] 5 [] (by rfl)

/-- C6: whenever the gateway yields "no value" — in the AcquireDate loop (at
any iteration), in the AcquirePartySize loop (at any iteration), or at the
Confirm elicitation — the workflow returns the corresponding
cancellation-shaped string at once, leaving the rest of the oracle
unconsumed: no later state is reached and no further elicitation call is
issued. -/
theorem no_value_terminates_immediately :
    ∀ (today : PyDate) (date : String) (party_size : Int) (b : GBehavior)
      (rest resps r1 : List GBehavior) (s d : String) (ps : Int),
      ((date == "" || !validate_date today date) = true →
        elicit_with_validation b (dateMessage today date) SchemaClass.getDate (some "date") = none →
        dateLoop today date (b :: rest) = LoopRes.ret "Date input cancelled. Booking cancelled." rest) ∧
      ((party_size == 0 || decide (party_size ≤ 0)) = true →
        elicit_with_validation b (partySizeMessage party_size) SchemaClass.getPartySize (some "party_size") = none →
        partyLoop party_size (b :: rest) = LoopRes.ret "Party size input cancelled. Booking cancelled." rest) ∧
      (dateLoop today date resps = LoopRes.ret s rest →
        book_table today date party_size resps = TryOut.returns s rest) ∧
      (dateLoop today date resps = LoopRes.done d r1 →
        partyLoop party_size r1 = LoopRes.ret s rest →
        book_table today date party_size resps = TryOut.returns s rest) ∧
      (dateLoop today date resps = LoopRes.done d r1 →
        partyLoop party_size r1 = LoopRes.done ps (b :: rest) →
        elicit_with_validation b (confirmMessage ps d) SchemaClass.confirmBooking none = none →
        book_table today date party_size resps = TryOut.returns "Booking confirmation cancelled." rest) := by
  intro today date party_size b rest resps r1 s d ps
  refine ⟨fun hg he => ?_, fun hg he => ?_, fun hd => ?_, fun hd hp => ?_, fun hd hp he => ?_⟩
  · unfold dateLoop
    rw [if_pos hg]
    dsimp only
    rw [he]
  · unfold partyLoop
    rw [if_pos hg]
    dsimp only
    rw [he]
  · unfold book_table book_table_try
    rw [hd]
  · unfold book_table book_table_try
    rw [hd]
    dsimp only
    rw [hp]
  · unfold book_table book_table_try
    rw [hd]
    dsimp only
    rw [hp]
    dsimp only
    rw [he]

/-- Witness for C6: concrete "no value" results in each of the three states
terminate the run at once with the matching cancellation string and an
untouched oracle tail. -/
theorem no_value_terminates_immediately_witness :
    dateLoop ⟨2026, 1, 1⟩ "" [GBehavior.declined] =
      LoopRes.ret "Date input cancelled. Booking cancelled." [] ∧
    partyLoop 0 [GBehavior.cancelled] =
      LoopRes.ret "Party size input cancelled. Booking cancelled." [] ∧
    book_table ⟨2026, 1, 1⟩ "" 0 [GBehavior.declined] =
      TryOut.returns "Date input cancelled. Booking cancelled." [] ∧
    book_table ⟨2026, 1, 1⟩ "2999-01-01" 0 [GBehavior.declined] =
      TryOut.returns "Party size input cancelled. Booking cancelled." [] ∧
    book_table ⟨2026, 1, 1⟩ "2999-01-01" 3 [GBehavior.raised PyExc.connectionError] =
      TryOut.returns "Booking confirmation cancelled." [] :=
  ⟨(no_value_terminates_immediately ⟨2026, 1, 1⟩ "" 0 GBehavior.declined [] [] [] "" "" 0).1
      (by rfl) (by rfl),
   ((no_value_terminates_immediately ⟨2026, 1, 1⟩ "" 0 GBehavior.cancelled [] [] [] "" "" 0).2).1
      (by rfl) (by rfl),
   (((no_value_terminates_immediately ⟨2026, 1, 1⟩ "" 0 GBehavior.declined []
      [GBehavior.declined] [] "Date input cancelled. Booking cancelled." "" 0).2).2).1 (by rfl),
   ((((no_value_terminates_immediately ⟨2026, 1, 1⟩ "2999-01-01" 0 GBehavior.declined []
      [GBehavior.declined] [GBehavior.declined]
      "Party size input cancelled. Booking cancelled." "2999-01-01" 0).2).2).2).1 (by rfl) (by rfl),
   (((((no_value_terminates_immediately ⟨2026, 1, 1⟩ "2999-01-01" 3
      (GBehavior.raised PyExc.connectionError) []
      [GBehavior.raised PyExc.connectionError] [GBehavior.raised PyExc.connectionError]
      "" "2999-01-01" 3).2).2).2).2) (by rfl) (by rfl) (by rfl)⟩

/-- C8: invoked with a pre-supplied date that passes `validate_date` and a
pre-supplied party size in 1..20, the workflow skips both acquisition loops
and issues exactly one elicitation — the confirmation: whatever that single
round trip does, the run ends having consumed exactly one oracle entry. -/
theorem presupplied_valid_goes_straight_to_confirm :
    ∀ (today : PyDate) (date : String) (party_size : Int) (b : GBehavior) (rest : List GBehavior),
      validate_date today date = true → 1 ≤ party_size → party_size ≤ 20 →
      ∃ s, book_table today date party_size (b :: rest) = TryOut.returns s rest := by
  intro today date ps b rest hval h1 h20
  have hdone : dateLoop today date (b :: rest) = LoopRes.done date (b :: rest) := by
    unfold dateLoop
    rw [if_neg ?_]
    simp only [Bool.or_eq_true, Bool.not_eq_true', beq_iff_eq]
    push_neg
    constructor
    · intro hd
      rw [hd, show validate_date today "" = false from rfl] at hval
      exact Bool.noConfusion hval
    · simp [hval]
  have hpdone : partyLoop ps (b :: rest) = LoopRes.done ps (b :: rest) := by
    unfold partyLoop
    rw [if_neg ?_]
    simp only [Bool.or_eq_true, beq_iff_eq, decide_eq_true_eq]
    push_neg
    omega
  unfold book_table book_table_try
  rw [hdone]
  dsimp only
  rw [hpdone]
  dsimp only
  cases helic : elicit_with_validation b (confirmMessage ps date) SchemaClass.confirmBooking none with
  | none => exact ⟨"Booking confirmation cancelled.", rfl⟩
  | some conf => exact ⟨confirmProcess conf ps date, rfl⟩

/-- Witness for C8 at a concrete valid date and party size: one oracle entry
is consumed and the run returns. -/
theorem presupplied_valid_goes_straight_to_confirm_witness :
    ∃ s, book_table ⟨2020, 1, 1⟩ "2999-01-01" 4 [GBehavior.declined] = TryOut.returns s [] :=
  presupplied_valid_goes_straight_to_confirm ⟨2020, 1, 1⟩ "2999-01-01" 4 GBehavior.declined []
    (by rfl) (by decide) (by decide)

/-- C9: an accepted confirmation payload is read permissively, whether it is
a mapping (dict access with defaults) or a structured object
(`hasattr`/`getattr` with defaults): a payload whose confirm flag is true and
whose notes field is absent yields the success string with no notes suffix,
and a payload with no readable confirm flag degrades to the not-confirmed
outcome — in either representation, and without raising. -/
theorem confirm_payload_read_permissively :
    ∀ (ps : Int) (date : String) (fields : List (String × PyVal)),
      (lookupField fields "confirm" = some (PyVal.pBool true) →
        lookupField fields "notes" = none →
        confirmProcess (PyVal.pObj fields) ps date = successMessage ps date "" ∧
        confirmProcess (PyVal.pDict fields) ps date = successMessage ps date "") ∧
      (lookupField fields "confirm" = none →
        confirmProcess (PyVal.pObj fields) ps date = "❌ Booking cancelled." ∧
        confirmProcess (PyVal.pDict fields) ps date = "❌ Booking cancelled.") := by
  intro ps date fields
  constructor
  · intro hc hn
    constructor
    · simp [confirmProcess, hasattrF, getattrF, hc, hn, pyTruthy]
    · simp [confirmProcess, hc, hn, pyTruthy]
  · intro hc
    constructor
    · simp [confirmProcess, hasattrF, getattrF, hc, pyTruthy]
    · simp [confirmProcess, hc, pyTruthy]

/-- Witness for C9 at concrete payloads: `confirm=True` with no notes field,
as an object and as a dict, both succeed without a notes suffix; a payload
with no confirm flag at all degrades to the cancellation string. -/
theorem confirm_payload_read_permissively_witness :
    (confirmProcess (PyVal.pObj [("confirm", PyVal.pBool true)]) 4 "2999-01-01" =
        successMessage 4 "2999-01-01" "" ∧
      confirmProcess (PyVal.pDict [("confirm", PyVal.pBool true)]) 4 "2999-01-01" =
        successMessage 4 "2999-01-01" "") ∧
    (confirmProcess (PyVal.pObj [("other", PyVal.pInt 1)]) 4 "2999-01-01" =
        "❌ Booking cancelled." ∧
      confirmProcess (PyVal.pDict [("other", PyVal.pInt 1)]) 4 "2999-01-01" =
        "❌ Booking cancelled.") :=
  ⟨(confirm_payload_read_permissively 4 "2999-01-01" [("confirm", PyVal.pBool true)]).1
      (by rfl) (by rfl),
   (confirm_payload_read_permissively 4 "2999-01-01" [("other", PyVal.pInt 1)]).2 (by rfl)⟩

/-- Modelled from the spec's words for claim C3: a string in the exact
fixed-width format YYYY-MM-DD — four digits, a dash, two digits, a dash, two
digits. -/
def specExactYmdFormat (s : String) : Bool :=
  match s.data with
  | [y1, y2, y3, y4, s1, m1, m2, s2, d1, d2] =>
    s1 == '-' && s2 == '-' && y1.isDigit && y2.isDigit && y3.isDigit && y4.isDigit &&
      m1.isDigit && m2.isDigit && d1.isDigit && d2.isDigit
  | _ => false

/-- C3 counterexample: `validate_date` accepts "9999-1-1", a string that is
not in the exact format YYYY-MM-DD — `strptime("%Y-%m-%d")` also matches
one-digit months and days — so "true iff exact-format and not in the past"
fails. -/
theorem validate_date_accepts_nonexact_format :
    validate_date ⟨2020, 1, 1⟩ "9999-1-1" = true ∧
      specExactYmdFormat "9999-1-1" = false := by
  exact ⟨by decide, by decide⟩

/-- Shape of the year region of a `%Y-%m-%d` match: exactly four digits. -/
def YearShape (ys : List Char) (y : Nat) : Prop :=
  ∃ a b c d, ys = [a, b, c, d] ∧
    ('0' ≤ a ∧ a ≤ '9') ∧ ('0' ≤ b ∧ b ≤ '9') ∧ ('0' ≤ c ∧ c ≤ '9') ∧ ('0' ≤ d ∧ d ≤ '9') ∧
    y = yearVal a b c d

/-- Shape of the month region: the three regex alternatives of `%m`. -/
def MonthShape (ms : List Char) (m : Nat) : Prop :=
  (∃ b, ms = ['1', b] ∧ ('0' ≤ b ∧ b ≤ '2') ∧ m = 10 + dval b) ∨
  (∃ b, ms = ['0', b] ∧ ('1' ≤ b ∧ b ≤ '9') ∧ m = dval b) ∨
  (∃ a, ms = [a] ∧ ('1' ≤ a ∧ a ≤ '9') ∧ m = dval a)

/-- Shape of the day region: the four regex alternatives of `%d`. -/
def DayShape (ds : List Char) (d : Nat) : Prop :=
  (∃ b, ds = ['3', b] ∧ ('0' = b ∨ '1' = b) ∧ d = 30 + dval b) ∨
  (∃ a b, ds = [a, b] ∧ (a = '1' ∨ a = '2') ∧ ('0' ≤ b ∧ b ≤ '9') ∧ d = 10 * dval a + dval b) ∨
  (∃ b, ds = ['0', b] ∧ ('1' ≤ b ∧ b ≤ '9') ∧ d = dval b) ∨
  (∃ a, ds = [a] ∧ ('1' ≤ a ∧ a ≤ '9') ∧ d = dval a)

/-- A whole-string `%Y-%m-%d` match, described structurally: the character
data splits into a year region, a literal dash, a month region, a literal
dash and a day region, with nothing left over. -/
def StrptimeYmd (s : String) (y m d : Nat) : Prop :=
  ∃ ys ms ds, s.data = ys ++ '-' :: (ms ++ '-' :: ds) ∧
    YearShape ys y ∧ MonthShape ms m ∧ DayShape ds d

theorem parseMonth_sound : ∀ (cs : List Char) (m : Nat) (rest : List Char),
    parseMonth cs = some (m, rest) → ∃ ms, cs = ms ++ rest ∧ MonthShape ms m := by
  intro cs m rest h
  rcases cs with _ | ⟨a, _ | ⟨b, r⟩⟩
  · simp [parseMonth] at h
  · simp only [parseMonth] at h
    split_ifs at h with h1
    · simp only [Option.some.injEq, Prod.mk.injEq] at h
      obtain ⟨rfl, rfl⟩ := h
      exact ⟨[a], by simp, Or.inr (Or.inr ⟨a, rfl, h1, rfl⟩)⟩
  · simp only [parseMonth] at h
    split_ifs at h with h1 h2 h3
    · simp only [Option.some.injEq, Prod.mk.injEq] at h
      obtain ⟨rfl, rfl⟩ := h
      obtain ⟨rfl, hb⟩ := h1
      exact ⟨['1', b], rfl, Or.inl ⟨b, rfl, hb, rfl⟩⟩
    · simp only [Option.some.injEq, Prod.mk.injEq] at h
      obtain ⟨rfl, rfl⟩ := h
      obtain ⟨rfl, hb⟩ := h2
      exact ⟨['0', b], rfl, Or.inr (Or.inl ⟨b, rfl, hb, rfl⟩)⟩
    · simp only [Option.some.injEq, Prod.mk.injEq] at h
      obtain ⟨rfl, rfl⟩ := h
      exact ⟨[a], rfl, Or.inr (Or.inr ⟨a, rfl, h3, rfl⟩)⟩

theorem parseMonth_complete : ∀ (ms tail : List Char) (m : Nat),
    MonthShape ms m → parseMonth (ms ++ '-' :: tail) = some (m, '-' :: tail) := by
  intro ms tail m h
  rcases h with ⟨b, rfl, hb, rfl⟩ | ⟨b, rfl, hb, rfl⟩ | ⟨a, rfl, ha, rfl⟩
  · simp [parseMonth, hb.1, hb.2]
  · simp [parseMonth, hb.1, hb.2]
  · simp [parseMonth, ha.1, ha.2, (by decide : ¬(('0' : Char) ≤ '-')),
      (by decide : ¬(('1' : Char) ≤ '-'))]

theorem parseDay_sound : ∀ (cs : List Char) (d : Nat),
    parseDay cs = some (d, []) → DayShape cs d := by
  intro cs d h
  rcases cs with _ | ⟨a, _ | ⟨b, r⟩⟩
  · simp [parseDay] at h
  · simp only [parseDay] at h
    split_ifs at h with h1
    · simp only [Option.some.injEq, Prod.mk.injEq] at h
      obtain ⟨rfl, -⟩ := h
      exact Or.inr (Or.inr (Or.inr ⟨a, rfl, h1, rfl⟩))
  · simp only [parseDay] at h
    split_ifs at h with h1 h2 h3 h4
    · simp only [Option.some.injEq, Prod.mk.injEq] at h
      obtain ⟨rfl, rfl⟩ := h
      obtain ⟨rfl, hb⟩ := h1
      exact Or.inl ⟨b, rfl, hb, rfl⟩
    · simp only [Option.some.injEq, Prod.mk.injEq] at h
      obtain ⟨rfl, rfl⟩ := h
      exact Or.inr (Or.inl ⟨a, b, rfl, h2.1, h2.2, rfl⟩)
    · simp only [Option.some.injEq, Prod.mk.injEq] at h
      obtain ⟨rfl, rfl⟩ := h
      obtain ⟨rfl, hb⟩ := h3
      exact Or.inr (Or.inr (Or.inl ⟨b, rfl, hb, rfl⟩))
    · simp at h

theorem parseDay_complete : ∀ (ds : List Char) (d : Nat),
    DayShape ds d → parseDay ds = some (d, []) := by
  intro ds d h
  rcases h with ⟨b, rfl, hb, rfl⟩ | ⟨a, b, rfl, ha, hb, rfl⟩ | ⟨b, rfl, hb, rfl⟩ | ⟨a, rfl, ha, rfl⟩
  · simp [parseDay, hb]
  · rcases ha with rfl | rfl <;> simp [parseDay, hb.1, hb.2]
  · simp [parseDay, hb.1, hb.2]
  · simp [parseDay, ha.1, ha.2]

theorem readYmd_iff : ∀ (cs : List Char) (y m d : Nat),
    readYmd cs = some (y, m, d) ↔
      ∃ ys ms ds, cs = ys ++ '-' :: (ms ++ '-' :: ds) ∧
        YearShape ys y ∧ MonthShape ms m ∧ DayShape ds d := by
  intro cs y m d
  constructor
  · intro h
    rcases cs with _ | ⟨y1, _ | ⟨y2, _ | ⟨y3, _ | ⟨y4, _ | ⟨c5, rest⟩⟩⟩⟩⟩
    · simp [readYmd] at h
    · simp [readYmd] at h
    · simp [readYmd] at h
    · simp [readYmd] at h
    · simp [readYmd] at h
    · simp only [readYmd] at h
      split_ifs at h with hY
      · obtain ⟨hc5, hd1, hd2, hd3, hd4⟩ := hY
        subst hc5
        cases hm : parseMonth rest with
        | none => rw [hm] at h; simp at h
        | some pr =>
          obtain ⟨m', rest1⟩ := pr
          rw [hm] at h
          dsimp only at h
          rcases rest1 with _ | ⟨c, rest2⟩
          · simp at h
          · dsimp only at h
            split_ifs at h with hc
            · subst hc
              cases hd : parseDay rest2 with
              | none => rw [hd] at h; simp at h
              | some pr2 =>
                obtain ⟨d', rest3⟩ := pr2
                rw [hd] at h
                dsimp only at h
                split_ifs at h with hr3
                · subst hr3
                  simp only [Option.some.injEq, Prod.mk.injEq] at h
                  obtain ⟨hy, hm', hd'⟩ := h
                  obtain ⟨ms, hrest, hMS⟩ := parseMonth_sound rest m' ('-' :: rest2) hm
                  have hDS := parseDay_sound rest2 d' hd
                  refine ⟨[y1, y2, y3, y4], ms, rest2, ?_, ?_, ?_, ?_⟩
                  · rw [hrest]; simp
                  · exact ⟨y1, y2, y3, y4, rfl, hd1, hd2, hd3, hd4, hy.symm⟩
                  · exact hm' ▸ hMS
                  · exact hd' ▸ hDS
  · rintro ⟨ys, ms, ds, hcs, ⟨a, b, c, d4, rfl, ha, hb, hc, hd4, rfl⟩, hMS, hDS⟩
    subst hcs
    have h1 := parseMonth_complete ms ds m hMS
    have h2 := parseDay_complete ds d hDS
    simp [readYmd, ha.1, ha.2, hb.1, hb.2, hc.1, hc.2, hd4.1, hd4.2, h1, h2]

/-- C3 (amended): `validate_date s` returns true exactly when `s` matches
CPython `strptime`'s `%Y-%m-%d` — a four-digit year, but months and days of
one or two digits — as a calendar-valid date (month 1..12, day within that
month, year ≥ 1) that is not strictly earlier than the server's current
date; unparsable strings are rejected and same-day dates are accepted
(`dateLe today today` holds). -/
theorem validate_date_characterization :
    ∀ (today : PyDate) (s : String),
      validate_date today s = true ↔
        ∃ y m d, StrptimeYmd s y m d ∧ calendarDateOk y m d = true ∧
          dateLe today ⟨y, m, d⟩ = true := by
  intro today s
  unfold validate_date parseYmd
  cases hr : readYmd s.data with
  | none =>
    dsimp only
    constructor
    · intro h; exact absurd h (by simp)
    · rintro ⟨y, m, d, hS, hcal, hle⟩
      have h2 : readYmd s.data = some (y, m, d) := (readYmd_iff s.data y m d).mpr hS
      rw [hr] at h2
      exact absurd h2 (by simp)
  | some t =>
    obtain ⟨y0, m0, d0⟩ := t
    dsimp only
    by_cases hcal : calendarDateOk y0 m0 d0 = true
    · rw [if_pos hcal]
      dsimp only
      constructor
      · intro hle
        exact ⟨y0, m0, d0, (readYmd_iff s.data y0 m0 d0).mp hr, hcal, hle⟩
      · rintro ⟨y, m, d, hS, hcal2, hle⟩
        have h2 : readYmd s.data = some (y, m, d) := (readYmd_iff s.data y m d).mpr hS
        rw [hr] at h2
        simp only [Option.some.injEq, Prod.mk.injEq] at h2
        obtain ⟨rfl, rfl, rfl⟩ := h2
        exact hle
    · rw [if_neg hcal]
      dsimp only
      constructor
      · intro h; exact absurd h (by simp)
      · rintro ⟨y, m, d, hS, hcal2, hle⟩
        have h2 : readYmd s.data = some (y, m, d) := (readYmd_iff s.data y m d).mpr hS
        rw [hr] at h2
        simp only [Option.some.injEq, Prod.mk.injEq] at h2
        obtain ⟨rfl, rfl, rfl⟩ := h2
        exact absurd hcal2 hcal
